import Mathlib

/-! Shallow embedding of the NFA ShotGrid Project Creator core
(`src/model.py`, `src/controller.py`).

The embedding follows the Python source statement by statement:

* `ProjectInformation`, `UserInformation` mirror the dataclasses of
  `model.py`; `ModelState` packs the draft together with the uniqueness
  snapshots (`self.projects`, `self.project_codes`) that
  `create_shotgrid_connection` fetches once per session.
* The validators mirror `validate_project_name` / `validate_project_code` /
  `validate_project`: they first store the field on the draft (the Python
  assigns `self.project_information.<field> = ...` before any check) and
  then return the message of the first failing check (`raise
  ValidationError(...)` in the source), or `none` on success.
* Python's `re.match(pattern, s)` with an anchored character-class pattern
  (`"^[a-z_]*$"`, `"^[Pp0-9]+$"`, `"^[A-Za-z]+$"`) succeeds exactly when
  every character of `s` is in the class, or when every character except a
  single trailing newline is (CPython `$` also matches just before a
  newline that ends the string).  `pyMatchStar` / `pyMatchPlus` encode
  exactly that semantics.
* Python's `str.lower()` is modelled by `asciiLower`, lower-casing the
  ASCII range; every character class used by the validators lies in ASCII.
* The remote ShotGrid session is modelled by `SgEnv`, an oracle deciding
  for each remote write whether it succeeds or raises (and which project
  id a successful project create returns).  `create_project` returns the
  list of remote calls it issued, in order, together with the final
  outcome, mirroring `ProjectCreatorModel.create_project`.
-/

namespace ProjectCreator

/-! ### Python string primitives -/

/-- Python `str.lower()` restricted to one character: folds ASCII `A`–`Z` to
`a`–`z` and leaves everything else unchanged (faithful to CPython on the
ASCII range, which contains every character class the validators use). -/
def asciiLowerChar (c : Char) : Char :=
  if 'A' ≤ c ∧ c ≤ 'Z' then Char.ofNat (c.toNat + 32) else c

/-- Python `str.lower()` on a whole string (ASCII range). -/
def asciiLower (s : String) : String :=
  ⟨s.data.map asciiLowerChar⟩

/-- CPython `re.match("^[…]*$", s)`: the greedy class-star must reach either
the end of the string or the position just before a trailing newline
(CPython `$` matches at end of string or before a final `'\n'`). -/
def pyMatchStar (cls : Char → Bool) (s : List Char) : Bool :=
  s.all cls || (s.getLast? == some '\n' && s.dropLast.all cls)

/-- CPython `re.match("^[…]+$", s)`: like `pyMatchStar` but the class must
consume at least one character. -/
def pyMatchPlus (cls : Char → Bool) (s : List Char) : Bool :=
  (!s.isEmpty && s.all cls) ||
    (s.getLast? == some '\n' && !s.dropLast.isEmpty && s.dropLast.all cls)

/-- Character class of the name pattern `[a-z_]`. -/
def nameClass (c : Char) : Bool :=
  decide ('a' ≤ c ∧ c ≤ 'z') || c == '_'

/-- Character class of the production-code pattern `[Pp0-9]`. -/
def productionCodeClass (c : Char) : Bool :=
  c == 'P' || c == 'p' || decide ('0' ≤ c ∧ c ≤ '9')

/-- Character class of the three-letter-code pattern `[A-Za-z]`. -/
def letterClass (c : Char) : Bool :=
  decide ('A' ≤ c ∧ c ≤ 'Z') || decide ('a' ≤ c ∧ c ≤ 'z')

/-! ### Data model (`model.py` dataclasses and session state) -/

/-- A ShotGrid `HumanUser` record as fetched by `get_shotgrid_user`
(fields `id`, `name`, `sg_lichting`, `permission_rule_set`; the `login`
field additionally backs the second search filter). -/
structure Person where
  id : Nat
  name : String
  login : String
  sg_lichting : String
  permission_rule_set_name : String
deriving DecidableEq

/-- Dataclass `ProjectInformation` of `model.py`. -/
structure ProjectInformation where
  username : String
  project_name : String
  has_production_code : Bool
  project_code : String
  has_other_supervisors : Bool
  supervisor_list : List Person
  render_engine : String
  project_type : String
  project_fps : Nat
deriving DecidableEq

/-- Dataclass `UserInformation` of `model.py`. -/
structure UserInformation where
  sg_username : String
  sg_user_id : Nat
  student_year : Int
  student_graduation_year : Int
deriving DecidableEq

/-- The model's mutable state: the draft plus the two uniqueness snapshots
fetched once by `create_shotgrid_connection`. -/
structure ModelState where
  project_information : ProjectInformation
  projects : List String
  project_codes : List String
deriving DecidableEq

/-- The draft as initialised by `ProjectCreatorModel.__init__`. -/
def initial_project_information : ProjectInformation :=
  { username := ""
    project_name := ""
    has_production_code := true
    project_code := ""
    has_other_supervisors := false
    supervisor_list := []
    render_engine := "All"
    project_type := "Fiction"
    project_fps := 25 }

/-! ### Directory lookup (`get_shotgrid_user`) -/

/-- Substring test: the ShotGrid `["name", "contains", username]` filter. -/
def containsSub (needle hay : List Char) : Bool :=
  hay.tails.any (fun t => needle.isPrefixOf t)

/-- ShotGrid `find_one("HumanUser", [["name", "contains", username]], …)`:
first record whose display name contains the identifier. -/
def find_one_by_name (db : List Person) (username : String) : Option Person :=
  db.find? (fun p => containsSub username.data p.name.data)

/-- ShotGrid `find_one("HumanUser", [["login", "is", username]], …)`:
first record whose login equals the identifier. -/
def find_one_by_login (db : List Person) (username : String) : Option Person :=
  db.find? (fun p => p.login == username)

/-- Embeds `ProjectCreatorModel.get_shotgrid_user`: name-contains search first,
login-is search only if the first returned nothing, else `None`. -/
def get_shotgrid_user (db : List Person) (username : String) : Option Person :=
  match find_one_by_name db username with
  | some user => some user
  | none => find_one_by_login db username

/-! ### Student-year computation (`get_current_student_year`) -/

/-- Gregorian leap-year rule (backs CPython `datetime` arithmetic). -/
def isLeapYear (y : Nat) : Bool :=
  (y % 4 == 0 && y % 100 != 0) || y % 400 == 0

/-- Number of days of month `m` (1–12) in year `y`. -/
def daysInMonth (y m : Nat) : Nat :=
  if m == 2 then (if isLeapYear y then 29 else 28)
  else if m == 4 || m == 6 || m == 9 || m == 11 then 30
  else 31

/-- Number of days of year `y`. -/
def daysInYear (y : Nat) : Nat :=
  if isLeapYear y then 366 else 365

/-- One-based ordinal of the date `y-m-d` within year `y`. -/
def dayOfYear (y m d : Nat) : Nat :=
  (List.range (m - 1)).foldl (fun acc i => acc + daysInMonth y (i + 1)) 0 + d

/-- Calendar year of `now + timedelta(days=120)` (the
`corrected_time.strftime("%Y")` of the source).  Since 120 is smaller than
any year length, the shift crosses at most one year boundary: the year
increments exactly when the 120-day shift overruns the current year. -/
def yearAfter120Days (y m d : Nat) : Nat :=
  if dayOfYear y m d + 120 ≤ daysInYear y then y else y + 1

/-- Embeds `ProjectCreatorModel.get_current_student_year`, with `now` made an
explicit argument (`datetime.datetime.now()` in the source) as the date
`y-m-d`. -/
def get_current_student_year (graduation_year : Int) (y m d : Nat) : Int :=
  let current_year : Int := (yearAfter120Days y m d : Nat)
  let to_graduation_year : Int := graduation_year - current_year
  let student_year : Int := 4 - to_graduation_year
  if student_year > 4 then 4 else student_year

/-! ### Field validators (`validate_project_name`, `validate_project_code`) -/

/-- Embeds `ProjectCreatorModel.validate_project_name`: stores the name on the
draft first (line 217 of `model.py`), then raises on the first failing
check — empty, character grammar (`re.match("^[a-z_]*$", …)`), snapshot
uniqueness.  The returned pair is (updated state, message of the first
failing check or `none`). -/
def validate_project_name (st : ModelState) (project_name : String) :
    ModelState × Option String :=
  let st := { st with project_information :=
    { st.project_information with project_name := project_name } }
  (st,
    if project_name = "" then some "You must fill in a project name"
    else if pyMatchStar nameClass project_name.data = false then
      some "Project name may only use lowercase a-z and underscores."
    else if project_name ∈ st.projects then some "Project name already taken."
    else none)

/-- The f-string length complaint of `validate_project_code`. -/
def length_message (actual expected : Nat) : String :=
  "Project code uses " ++ (if actual > expected then "more" else "less") ++
    " characters than allowed."

def production_code_warning : String :=
  "Production code should start with a p and contain 5 numbers."

def three_letter_warning : String :=
  "Three-letter code should only use letters a-z."

/-- Embeds `ProjectCreatorModel.validate_project_code`: stores the lowercased code
on the draft first (line 244 of `model.py`), selects grammar, length and
warning from `has_production_code`, then raises on the first failing check
— character grammar (checked on the *original* argument), exact length,
snapshot membership of the *lowercased* argument. -/
def validate_project_code (st : ModelState) (project_code : String) :
    ModelState × Option String :=
  let st := { st with project_information :=
    { st.project_information with project_code := asciiLower project_code } }
  let legal_characters :=
    if st.project_information.has_production_code then productionCodeClass
    else letterClass
  let code_length : Nat :=
    if st.project_information.has_production_code then 6 else 3
  let legal_character_warning :=
    if st.project_information.has_production_code then production_code_warning
    else three_letter_warning
  (st,
    if pyMatchPlus legal_characters project_code.data = false then
      some legal_character_warning
    else if project_code.length ≠ code_length then
      some (length_message project_code.length code_length)
    else if asciiLower project_code ∈ st.project_codes then
      some "Project code already taken."
    else none)

/-- Embeds `ProjectCreatorModel.set_has_production_code`. -/
def set_has_production_code (st : ModelState) (has_code : Bool) : ModelState :=
  { st with project_information :=
    { st.project_information with has_production_code := has_code } }

/-- Embeds `ProjectCreatorModel.validate_project`: re-runs name validation, then
code validation, on the currently stored values, then requires a non-empty
supervisor list; the first failure is the result. -/
def validate_project (st : ModelState) : ModelState × Option String :=
  match validate_project_name st st.project_information.project_name with
  | (st₁, some m) => (st₁, some m)
  | (st₁, none) =>
    match validate_project_code st₁ st₁.project_information.project_code with
    | (st₂, some m) => (st₂, some m)
    | (st₂, none) =>
      if st₂.project_information.supervisor_list.isEmpty then
        (st₂, some "You haven't yet added any supervisors.")
      else (st₂, none)

/-! ### Submission orchestrator (`create_project` and its callers) -/

/-- Reference to a ShotGrid permission rule set, as sent by
`add_supervisor_permissions_to_user`. -/
structure PermissionRuleSetRef where
  id : Nat
  name : String
  type : String
deriving DecidableEq

/-- The fixed `Supervisor` tier payload of
`add_supervisor_permissions_to_user`. -/
def supervisor_permission : PermissionRuleSetRef :=
  { id := 190, name := "Supervisor", type := "PermissionRuleSet" }

/-- An `{id, type}` entity reference as sent in ShotGrid payloads. -/
structure EntityRef where
  id : Nat
  type : String
deriving DecidableEq

/-- The `project_data` payload of `create_project`. -/
structure ProjectData where
  name : String
  tank_name : String
  sg_projectcode : String
  users : List EntityRef
  sg_supervisors : List EntityRef
  sg_render_engine : String
  sg_type : String
  sg_lichting : String
  sg_fps : Nat
  sg_status : String
deriving DecidableEq

/-- The `pipeline_configuration_data` payload of `create_project`. -/
structure PipelineConfigurationData where
  code : String
  descriptor : String
  plugin_ids : String
  project : EntityRef
  sg_lichting : String
deriving DecidableEq

/-- One remote write issued through the ShotGrid connection. -/
inductive SgCall where
  | update (user_id : Nat) (data : PermissionRuleSetRef)
  | createProject (data : ProjectData)
  | createPipelineConfiguration (data : PipelineConfigurationData)
deriving DecidableEq

/-- Oracle for the remote side of one submission: whether each permission
update raises (and with which message), whether the project create raises
or returns an id, and whether the pipeline-configuration create raises. -/
structure SgEnv where
  updateError : Nat → Option String
  createProjectResult : Except String Nat
  createPipelineError : Option String

/-- Embeds `ProjectCreatorModel.add_supervisor_permissions_to_user`: issues the
fixed tier-190 update exactly when the user's current permission group is
`"Artist"`.  Returns the calls issued and the outcome. -/
def add_supervisor_permissions_to_user (env : SgEnv) (shotgrid_user : Person) :
    List SgCall × Except String Unit :=
  if shotgrid_user.permission_rule_set_name = "Artist" then
    ([SgCall.update shotgrid_user.id supervisor_permission],
      match env.updateError shotgrid_user.id with
      | some msg => Except.error msg
      | none => Except.ok ())
  else ([], Except.ok ())

/-- Embeds `ProjectCreatorModel.get_formatted_supervisors_list`: walks the
supervisor list in order, collecting `{id, type: "HumanUser"}` references
and invoking the permission elevation for each entry; an exception from an
elevation aborts the walk and propagates. -/
def get_formatted_supervisors_list (env : SgEnv) :
    List Person → List SgCall × Except String (List EntityRef)
  | [] => ([], Except.ok [])
  | supervisor :: rest =>
    let (calls, res) := add_supervisor_permissions_to_user env supervisor
    match res with
    | Except.error msg => (calls, Except.error msg)
    | Except.ok _ =>
      let (calls₂, res₂) := get_formatted_supervisors_list env rest
      (calls ++ calls₂,
        res₂.map (fun l => { id := supervisor.id, type := "HumanUser" } :: l))

/-- Embeds `ProjectCreatorModel.get_pipeline_configuration_string`. -/
def get_pipeline_configuration_string (student_year : Int) : String :=
  "sgtk:descriptor:git_branch?branch=release/s" ++ toString student_year ++
    "&path=https://github.com/nfa-vfxim/nfa-shotgun-configuration.git"

/-- The `project_data` dictionary literal of `create_project`. -/
def build_project_data (info : ProjectInformation) (user : UserInformation)
    (formatted_supervisors_list : List EntityRef) : ProjectData :=
  { name := info.project_name
    tank_name := info.project_name
    sg_projectcode := info.project_code
    users := formatted_supervisors_list
    sg_supervisors := formatted_supervisors_list
    sg_render_engine := info.render_engine
    sg_type := info.project_type
    sg_lichting := "L" ++ toString user.student_graduation_year
    sg_fps := info.project_fps
    sg_status := "Active" }

/-- The `pipeline_configuration_data` dictionary literal of
`create_project`. -/
def build_pipeline_configuration_data (user : UserInformation)
    (project_id : Nat) : PipelineConfigurationData :=
  { code := "Primary"
    descriptor := get_pipeline_configuration_string user.student_year
    plugin_ids := "basic.*"
    project := { id := project_id, type := "Project" }
    sg_lichting := "s" ++ toString user.student_year }

/-- Embeds `ProjectCreatorModel.create_project`: formats the supervisor list
(elevating permissions on the way), then creates the project, then the
pipeline configuration, and returns the project-overview URL; any raising
remote call aborts the remainder, and nothing already done is undone.
The first component records every remote call issued, in program order. -/
def create_project (env : SgEnv) (st : ModelState) (user : UserInformation) :
    List SgCall × Except String String :=
  let (calls₁, supRes) :=
    get_formatted_supervisors_list env st.project_information.supervisor_list
  match supRes with
  | Except.error msg => (calls₁, Except.error msg)
  | Except.ok formatted_supervisors_list =>
    let project_data :=
      build_project_data st.project_information user formatted_supervisors_list
    match env.createProjectResult with
    | Except.error msg =>
      (calls₁ ++ [SgCall.createProject project_data], Except.error msg)
    | Except.ok project_id =>
      let pipeline_configuration_data :=
        build_pipeline_configuration_data user project_id
      let calls₂ := calls₁ ++ [SgCall.createProject project_data,
        SgCall.createPipelineConfiguration pipeline_configuration_data]
      match env.createPipelineError with
      | some msg => (calls₂, Except.error msg)
      | none =>
        (calls₂, Except.ok
          ("https://nfa.shotgunstudio.com/page/project_overview?project_id="
            ++ toString project_id))

/-- Embeds `ProjectCreatorController.create_project`: runs `validate_project`
first; a validation failure is shown inline and the submission is not
started (zero remote calls); otherwise the model's `create_project` runs. -/
def controller_create_project (env : SgEnv) (st : ModelState)
    (user : UserInformation) : List SgCall × Except String String :=
  match validate_project st with
  | (_, some msg) => ([], Except.error msg)
  | (st₁, none) => create_project env st₁ user

/-- The supervisors whose current tier is `"Artist"` — exactly those for
whom `add_supervisor_permissions_to_user` issues a remote update. -/
def artist_supervisors (l : List Person) : List Person :=
  l.filter (fun u => u.permission_rule_set_name == "Artist")

/-- The permission-elevation writes issued for a supervisor list, in
order. -/
def elevation_calls (l : List Person) : List SgCall :=
  (artist_supervisors l).map (fun u => SgCall.update u.id supervisor_permission)

/-- The `{id, type: "HumanUser"}` references built by
`get_formatted_supervisors_list`. -/
def formatted_refs (l : List Person) : List EntityRef :=
  l.map (fun u => { id := u.id, type := "HumanUser" })

/-! ### Concrete fixtures used by witnesses and counterexamples -/

/-- A fresh session: initial draft, empty uniqueness snapshots. -/
def st0 : ModelState := ⟨initial_project_information, [], []⟩

/-- Three-letter mode with an upper-case entry in the code snapshot. -/
def stUpperSnapshot : ModelState :=
  ⟨{ initial_project_information with has_production_code := false }, [],
    ["ABC"]⟩

/-- Three-letter mode with a lower-case entry in the code snapshot. -/
def stLowerSnapshot : ModelState :=
  ⟨{ initial_project_information with has_production_code := false }, [],
    ["abc"]⟩

/-- An acting user: second-year student graduating in 2026. -/
def userStu : UserInformation :=
  { sg_username := "Student Example", sg_user_id := 3, student_year := 2,
    student_graduation_year := 2026 }

/-- Remote environment in which every call succeeds; project id 5. -/
def envAllOk : SgEnv :=
  { updateError := fun _ => none, createProjectResult := Except.ok 5,
    createPipelineError := none }

/-- Remote environment in which every permission update raises. -/
def envUpdateFail : SgEnv :=
  { updateError := fun _ => some "permission update refused",
    createProjectResult := Except.ok 5, createPipelineError := none }

/-- Directory entry whose display name contains the string `"li"`. -/
def person_alice : Person := ⟨1, "Alice Smith", "asmith", "L2026", "Artist"⟩

/-- Directory entry whose login is exactly `"li"`. -/
def person_bob : Person := ⟨2, "Bob Stone", "li", "L2027", "Artist"⟩

/-- A directory in which a name-contains match and an exact-login match
point at different people. -/
def sample_directory : List Person := [person_alice, person_bob]

/-- A supervisor whose current permission tier is `Artist`. -/
def artist_supervisor : Person := ⟨7, "Ann Artist", "aartist", "L2026", "Artist"⟩

/-- A supervisor whose current permission tier is not `Artist`. -/
def manager_supervisor : Person :=
  ⟨7, "Mandy Manager", "mmanager", "L2026", "Manager"⟩

/-- Draft whose only supervisor is Artist-tier. -/
def stArtist : ModelState :=
  ⟨{ initial_project_information with supervisor_list := [artist_supervisor] },
    [], []⟩

/-- Draft whose only supervisor is Manager-tier. -/
def stManager : ModelState :=
  ⟨{ initial_project_information with supervisor_list := [manager_supervisor] },
    [], []⟩

/-- Draft with valid name and production code but no supervisors. -/
def stNoSupervisors : ModelState :=
  ⟨{ initial_project_information with
      project_name := "my_project"
      project_code := "p12345" }, [], []⟩

/-! ### Helper lemmas -/

/-- When every Artist-tier supervisor's update succeeds, the supervisor
walk issues exactly the elevation writes (in list order) and returns the
`HumanUser` references. -/
theorem get_formatted_supervisors_list_ok (env : SgEnv) (l : List Person)
    (h : ∀ u ∈ l, u.permission_rule_set_name = "Artist" →
      env.updateError u.id = none) :
    get_formatted_supervisors_list env l
      = (elevation_calls l, Except.ok (formatted_refs l)) := by
  induction l with
  | nil => rfl
  | cons u rest ih =>
    have hrest := ih (fun v hv hva => h v (List.mem_cons_of_mem _ hv) hva)
    by_cases ha : u.permission_rule_set_name = "Artist"
    · have hu : env.updateError u.id = none := h u (List.mem_cons_self u rest) ha
      simp [get_formatted_supervisors_list, add_supervisor_permissions_to_user,
        ha, hu, hrest, elevation_calls, artist_supervisors, formatted_refs,
        Except.map]
    · simp [get_formatted_supervisors_list, add_supervisor_permissions_to_user,
        ha, hrest, elevation_calls, artist_supervisors, formatted_refs,
        Except.map]

/-- When the update for the Artist-tier supervisor `u` raises after the
updates for the supervisors before it succeeded, the walk stops with `u`'s
elevation as its last issued call and propagates the error. -/
theorem get_formatted_supervisors_list_fail (env : SgEnv) (pre : List Person)
    (u : Person) (post : List Person) (msg : String)
    (hpre : ∀ v ∈ pre, v.permission_rule_set_name = "Artist" →
      env.updateError v.id = none)
    (ha : u.permission_rule_set_name = "Artist")
    (hu : env.updateError u.id = some msg) :
    get_formatted_supervisors_list env (pre ++ u :: post)
      = (elevation_calls pre ++ [SgCall.update u.id supervisor_permission],
          Except.error msg) := by
  induction pre with
  | nil =>
    simp [get_formatted_supervisors_list, add_supervisor_permissions_to_user,
      ha, hu, elevation_calls, artist_supervisors]
  | cons v vs ih =>
    have hvs := ih (fun w hw hwa => hpre w (List.mem_cons_of_mem _ hw) hwa)
    by_cases hva : v.permission_rule_set_name = "Artist"
    · have hv : env.updateError v.id = none :=
        hpre v (List.mem_cons_self v vs) hva
      simp [get_formatted_supervisors_list, add_supervisor_permissions_to_user,
        hva, hv, hvs, elevation_calls, artist_supervisors, Except.map]
    · simp [get_formatted_supervisors_list, add_supervisor_permissions_to_user,
        hva, hvs, elevation_calls, artist_supervisors, Except.map]

/-! ### Claim theorems -/

/-- C9: `validate_project_name` stores its argument on the draft and
`validate_project_code` stores the lowercased argument, in both cases
before (hence independently of) any validation outcome, and neither call
changes any other field of the state: the post-state is exactly the
pre-state with that single draft field replaced. -/
theorem setters_store_before_validation (st : ModelState) (s : String) :
    (validate_project_name st s).fst
        = { st with project_information :=
            { st.project_information with project_name := s } }
      ∧ (validate_project_code st s).fst
        = { st with project_information :=
            { st.project_information with project_code := asciiLower s } } :=
  ⟨rfl, rfl⟩

/-- C10: a freshly constructed draft has `has_production_code = true`
(so an untouched draft's code is checked against the production-code
grammar — e.g. `"abc"` draws the production-code warning under any
snapshots), empty name and code, no supervisors, render engine `"All"`,
project type `"Fiction"`, and 25 fps. -/
theorem initial_draft_defaults :
    initial_project_information.has_production_code = true
      ∧ initial_project_information.project_name = ""
      ∧ initial_project_information.project_code = ""
      ∧ initial_project_information.supervisor_list = []
      ∧ initial_project_information.render_engine = "All"
      ∧ initial_project_information.project_type = "Fiction"
      ∧ initial_project_information.project_fps = 25
      ∧ ∀ projects project_codes,
          (validate_project_code ⟨initial_project_information, projects,
              project_codes⟩ "abc").snd = some production_code_warning :=
  ⟨rfl, rfl, rfl, rfl, rfl, rfl, rfl, fun _ _ => rfl⟩

/-- C4: `get_current_student_year` equals `4 - (graduationYear - y)` where
`y` is the calendar year of `now + 120 days`, clamped from above to 4 and
not clamped from below (sub-1 values pass through); for graduation year
2026 and `now = 2024-01-01` the result is 2, and the 120-day projection
does cross a year boundary late in the year (2025-09-15 projects into
2026). -/
theorem student_year_formula (graduation_year : Int) (y m d : Nat) :
    get_current_student_year graduation_year y m d
        = min 4 (4 - (graduation_year - (yearAfter120Days y m d : Nat)))
      ∧ (4 - (graduation_year - (yearAfter120Days y m d : Nat)) < 1 →
          get_current_student_year graduation_year y m d
            = 4 - (graduation_year - (yearAfter120Days y m d : Nat)))
      ∧ get_current_student_year 2026 2024 1 1 = 2
      ∧ get_current_student_year 2027 2025 9 15 = 3 := by
  refine ⟨?_, ?_, by decide, by decide⟩
  · unfold get_current_student_year
    dsimp only
    split <;> omega
  · intro h
    unfold get_current_student_year
    dsimp only
    split <;> omega

/-- Witness for C4 at a concrete input: for graduation year 2031 seen from
2024-01-01 the formula value `4 - (2031 - 2024) = -3` is below 1 and is
returned unmodified. -/
theorem student_year_formula_witness :
    4 - ((2031 : Int) - (yearAfter120Days 2024 1 1 : Nat)) < 1
      ∧ get_current_student_year 2031 2024 1 1
          = 4 - ((2031 : Int) - (yearAfter120Days 2024 1 1 : Nat)) :=
  ⟨by decide, (student_year_formula 2031 2024 1 1).2.1 (by decide)⟩

/-- C2: evaluation of the code at the failing input `"123456"` under
`has_production_code = true` and an empty snapshot: the grammar check
`re.match("^[Pp0-9]+$", …)` constrains only the character set, so the
all-digit string `"123456"`, which does not start with `p` or `P`,
validates successfully — contradicting the claimed grammar (and the
code's own warning text).  Additionally, `"pppppp"` also validates, and
after flipping the flag its re-validation fails with the length message,
not the wrong-grammar message. -/
theorem production_code_grammar_bug :
    (validate_project_code st0 "123456").snd = none
      ∧ "123456".data.head? ≠ some 'p'
      ∧ "123456".data.head? ≠ some 'P'
      ∧ (validate_project_code st0 "pppppp").snd = none
      ∧ (validate_project_code
            (set_has_production_code (validate_project_code st0 "pppppp").fst
              false)
            ((validate_project_code st0 "pppppp").fst.project_information.project_code)).snd
          = some (length_message 6 3)
      ∧ length_message 6 3 ≠ three_letter_warning := by
  decide

/-- C3: evaluation of the code at the failing input `"abc\n"`: CPython's
`$` matches just before a trailing newline, so `re.match("^[a-z_]*$",
"abc\n")` succeeds and the name validates although it contains `'\n'`,
a character outside lowercase `a`–`z` and underscore — contradicting the
claimed rejection of every string with an out-of-set character (and the
code's own warning text). -/
theorem project_name_trailing_newline_bug :
    (validate_project_name st0 "abc\n").snd = none
      ∧ '\n' ∈ "abc\n".data
      ∧ nameClass '\n' = false := by
  decide

/-- Unfolding of `validate_project` in terms of the two field validators
applied to the stored values (the name step re-stores the already-stored
name, so its post-state is the input state up to structure eta). -/
theorem validate_project_unfolded (st : ModelState) :
    validate_project st
      = match (validate_project_name st
            st.project_information.project_name).snd with
        | some m => ((validate_project_name st
            st.project_information.project_name).fst, some m)
        | none =>
          match (validate_project_code st
              st.project_information.project_code).snd with
          | some m => ((validate_project_code st
              st.project_information.project_code).fst, some m)
          | none =>
            if st.project_information.supervisor_list.isEmpty then
              ((validate_project_code st
                  st.project_information.project_code).fst,
                some "You haven't yet added any supervisors.")
            else
              ((validate_project_code st
                  st.project_information.project_code).fst, none) := by
  have h1 : (validate_project_name st
      st.project_information.project_name).fst = st := rfl
  unfold validate_project
  rcases hv : validate_project_name st st.project_information.project_name
    with ⟨st₁, r⟩
  have hst : st₁ = st := by rw [← h1, hv]
  rw [hst]
  cases r with
  | some m => rfl
  | none =>
    dsimp only
    rcases hc : validate_project_code st st.project_information.project_code
      with ⟨st₂, r₂⟩
    have hst₂ : st₂ = (validate_project_code st
        st.project_information.project_code).fst := by rw [hc]
    have hsup : st₂.project_information.supervisor_list
        = st.project_information.supervisor_list := by
      rw [hst₂]
      rfl
    cases r₂ with
    | some m => rfl
    | none =>
      dsimp only
      rw [hsup]

/-- C8 (amended): the uniqueness check lowercases the *input* and then
tests verbatim membership in the snapshot: for a code that passes grammar
and length, the already-taken error occurs exactly when the lowercased
input is literally an element of the snapshot.  Case-insensitivity
therefore holds only on the input side; a snapshot entry written in a
different case (e.g. upper case) is never matched. -/
theorem code_uniqueness_lowercased_input (st : ModelState) (s : String)
    (hmatch : pyMatchPlus
        (if st.project_information.has_production_code then
          productionCodeClass else letterClass) s.data = true)
    (hlen : s.length
        = if st.project_information.has_production_code then 6 else 3) :
    ((validate_project_code st s).snd = some "Project code already taken."
        ↔ asciiLower s ∈ st.project_codes)
      ∧ ((validate_project_code st s).snd = none
        ↔ asciiLower s ∉ st.project_codes) := by
  cases hflag : st.project_information.has_production_code with
  | true =>
    rw [hflag] at hmatch hlen
    simp at hmatch hlen
    by_cases hm : asciiLower s ∈ st.project_codes <;>
      simp [validate_project_code, hflag, hmatch, hlen, hm]
  | false =>
    rw [hflag] at hmatch hlen
    simp at hmatch hlen
    by_cases hm : asciiLower s ∈ st.project_codes <;>
      simp [validate_project_code, hflag, hmatch, hlen, hm]

/-- Witness for C8: in three-letter mode with snapshot entry `"abc"`, the
upper-case input `"ABC"` is caught as already taken (input-side
case-insensitivity). -/
theorem code_uniqueness_lowercased_input_witness :
    (validate_project_code stLowerSnapshot "ABC").snd
      = some "Project code already taken." :=
  ((code_uniqueness_lowercased_input stLowerSnapshot "ABC" (by decide)
    (by decide)).1).mpr (by decide)

/-- C8 counterexample: with the snapshot entry written upper-case
(`"ABC"`), the input `"ABC"` — whose lowercased form equals that entry up
to case — validates successfully instead of failing with the
already-taken error: the lowercased input `"abc"` is compared verbatim
against the raw snapshot entry `"ABC"`. -/
theorem code_uniqueness_uppercase_snapshot_missed :
    (validate_project_code stUpperSnapshot "ABC").snd = none
      ∧ "ABC" ∈ stUpperSnapshot.project_codes
      ∧ asciiLower "ABC" = "abc" := by
  decide

/-- C7: the lookup tries the name-contains search first and returns its
result whenever it finds any record; the exact-login search runs only
when the name search found nothing; the lookup returns `none` exactly
when both stages find nothing.  In particular a substring name match
wins over an exact login match on a different person. -/
theorem get_shotgrid_user_stage_order (db : List Person) (username : String) :
    (∀ p, find_one_by_name db username = some p →
        get_shotgrid_user db username = some p)
      ∧ (find_one_by_name db username = none →
        get_shotgrid_user db username = find_one_by_login db username)
      ∧ (get_shotgrid_user db username = none ↔
        find_one_by_name db username = none
          ∧ find_one_by_login db username = none) := by
  cases h : find_one_by_name db username <;>
    simp [get_shotgrid_user, h]

/-- Witness for C7: in `sample_directory`, `"li"` is a substring of Alice's
display name while Bob's login is exactly `"li"`; the lookup returns
Alice. -/
theorem get_shotgrid_user_stage_order_witness :
    get_shotgrid_user sample_directory "li" = some person_alice
      ∧ person_bob.login = "li"
      ∧ person_alice ≠ person_bob :=
  ⟨(get_shotgrid_user_stage_order sample_directory "li").1 person_alice
    (by decide), by decide, by decide⟩

/-- C6: `validate_project` re-runs name validation before code validation
on the stored values and returns the first failure; when name and code
pass and the supervisor list is empty it fails with the no-supervisors
message; and whenever `validate_project` fails, the controller's submit
path performs zero remote calls. -/
theorem validate_project_first_failure (st : ModelState) :
    (∀ m, (validate_project_name st
          st.project_information.project_name).snd = some m →
        (validate_project st).snd = some m)
      ∧ (∀ m, (validate_project_name st
            st.project_information.project_name).snd = none →
          (validate_project_code st
            st.project_information.project_code).snd = some m →
          (validate_project st).snd = some m)
      ∧ ((validate_project_name st
            st.project_information.project_name).snd = none →
          (validate_project_code st
            st.project_information.project_code).snd = none →
          st.project_information.supervisor_list = [] →
          (validate_project st).snd
            = some "You haven't yet added any supervisors.")
      ∧ (∀ env user m, (validate_project st).snd = some m →
          controller_create_project env st user = ([], Except.error m)) := by
  refine ⟨?_, ?_, ?_, ?_⟩
  · intro m h
    rw [validate_project_unfolded st, h]
  · intro m hn hc
    rw [validate_project_unfolded st, hn, hc]
  · intro hn hc hsup
    rw [validate_project_unfolded st, hn, hc, hsup]
    rfl
  · intro env user m h
    have h' : validate_project st = ((validate_project st).fst, some m) := by
      rw [← h]
    unfold controller_create_project
    rw [h']

/-- Witness for C6: a draft with valid unique name and production code but
no supervisors fails `validate_project` with the no-supervisors message,
and the controller performs zero remote calls for it. -/
theorem validate_project_first_failure_witness :
    (validate_project stNoSupervisors).snd
        = some "You haven't yet added any supervisors."
      ∧ controller_create_project envAllOk stNoSupervisors userStu
        = ([], Except.error "You haven't yet added any supervisors.") := by
  have h₁ := (validate_project_first_failure stNoSupervisors).2.2.1
    (by decide) (by decide) (by decide)
  exact ⟨h₁, (validate_project_first_failure stNoSupervisors).2.2.2
    envAllOk userStu _ h₁⟩

/-- C1 (amended): within one submission the remote writes run strictly in
the order: one permission elevation per *Artist-tier* supervisor, in
draft-list order (a supervisor whose tier is not Artist produces no remote
write), then one project create, then one pipeline-configuration create.
A raising call aborts every later step, and the calls issued up to and
including the failing one are exactly a prefix of the full sequence —
elevations already applied and a project already created persist, with no
compensating call of any kind. -/
theorem submission_write_sequence (env : SgEnv) (st : ModelState)
    (user : UserInformation) :
    (∀ project_id,
        (∀ u ∈ st.project_information.supervisor_list,
          u.permission_rule_set_name = "Artist" →
            env.updateError u.id = none) →
        env.createProjectResult = Except.ok project_id →
        env.createPipelineError = none →
        create_project env st user
          = (elevation_calls st.project_information.supervisor_list
              ++ [SgCall.createProject (build_project_data
                    st.project_information user
                    (formatted_refs st.project_information.supervisor_list)),
                  SgCall.createPipelineConfiguration
                    (build_pipeline_configuration_data user project_id)],
              Except.ok
                ("https://nfa.shotgunstudio.com/page/project_overview?project_id="
                  ++ toString project_id)))
      ∧ (∀ pre u post msg,
          st.project_information.supervisor_list = pre ++ u :: post →
          (∀ v ∈ pre, v.permission_rule_set_name = "Artist" →
            env.updateError v.id = none) →
          u.permission_rule_set_name = "Artist" →
          env.updateError u.id = some msg →
          create_project env st user
            = (elevation_calls pre
                ++ [SgCall.update u.id supervisor_permission],
                Except.error msg))
      ∧ (∀ msg,
          (∀ u ∈ st.project_information.supervisor_list,
            u.permission_rule_set_name = "Artist" →
              env.updateError u.id = none) →
          env.createProjectResult = Except.error msg →
          create_project env st user
            = (elevation_calls st.project_information.supervisor_list
                ++ [SgCall.createProject (build_project_data
                      st.project_information user
                      (formatted_refs st.project_information.supervisor_list))],
                Except.error msg))
      ∧ (∀ project_id msg,
          (∀ u ∈ st.project_information.supervisor_list,
            u.permission_rule_set_name = "Artist" →
              env.updateError u.id = none) →
          env.createProjectResult = Except.ok project_id →
          env.createPipelineError = some msg →
          create_project env st user
            = (elevation_calls st.project_information.supervisor_list
                ++ [SgCall.createProject (build_project_data
                      st.project_information user
                      (formatted_refs st.project_information.supervisor_list)),
                    SgCall.createPipelineConfiguration
                      (build_pipeline_configuration_data user project_id)],
                Except.error msg)) := by
  refine ⟨?_, ?_, ?_, ?_⟩
  · intro project_id hall hcp hpl
    unfold create_project
    rw [get_formatted_supervisors_list_ok env _ hall, hcp, hpl]
  · intro pre u post msg hsplit hpre ha hu
    unfold create_project
    rw [hsplit, get_formatted_supervisors_list_fail env pre u post msg hpre ha hu]
  · intro msg hall hcp
    unfold create_project
    rw [get_formatted_supervisors_list_ok env _ hall, hcp]
  · intro project_id msg hall hcp hpl
    unfold create_project
    rw [get_formatted_supervisors_list_ok env _ hall, hcp, hpl]

/-- Witness for C1 at a concrete input: one Artist-tier supervisor whose
permission update raises — the submission's whole remote trace is that
single elevation attempt, and the failure carries the underlying error
text. -/
theorem submission_write_sequence_witness :
    create_project envUpdateFail stArtist userStu
      = ([SgCall.update 7 supervisor_permission],
          Except.error "permission update refused") :=
  (submission_write_sequence envUpdateFail stArtist userStu).2.1
    [] artist_supervisor [] "permission update refused" rfl
    (fun v hv _ => absurd hv (List.not_mem_nil v)) rfl rfl

/-- C1 counterexample: a draft whose single supervisor has tier
`"Manager"`: the submission succeeds while the remote-write trace contains
no permission-elevation call at all, refuting "one per supervisor in the
draft's list". -/
theorem submission_elevation_skips_non_artist :
    stManager.project_information.supervisor_list.length = 1
      ∧ ((create_project envAllOk stManager userStu).fst.filter
          (fun c => match c with
            | SgCall.update _ _ => true
            | _ => false)) = []
      ∧ (create_project envAllOk stManager userStu).snd
        = Except.ok
            "https://nfa.shotgunstudio.com/page/project_overview?project_id=5" := by
  refine ⟨rfl, rfl, rfl⟩

/-- C5 (amended): the project-create call sends exactly the fixed field
mapping, with `users` and `sg_supervisors` holding `{id, type:
"HumanUser"}` references (the ShotGrid person entity type — not
`"Person"`); the pipeline-configuration create sends `code = "Primary"`,
`plugin_ids = "basic.*"`, `project = {id, type: "Project"}` with the id
returned by the project create, `sg_lichting = "s" + currentYear` and a
descriptor embedding currentYear; success returns the
project-overview URL. -/
theorem project_create_payload (env : SgEnv) (st : ModelState)
    (user : UserInformation) (project_id : Nat)
    (hsup : ∀ u ∈ st.project_information.supervisor_list,
      u.permission_rule_set_name = "Artist" → env.updateError u.id = none)
    (hcp : env.createProjectResult = Except.ok project_id)
    (hpl : env.createPipelineError = none) :
    create_project env st user
      = (elevation_calls st.project_information.supervisor_list
          ++ [SgCall.createProject
              { name := st.project_information.project_name
                tank_name := st.project_information.project_name
                sg_projectcode := st.project_information.project_code
                users := st.project_information.supervisor_list.map
                  (fun u => { id := u.id, type := "HumanUser" })
                sg_supervisors := st.project_information.supervisor_list.map
                  (fun u => { id := u.id, type := "HumanUser" })
                sg_render_engine := st.project_information.render_engine
                sg_type := st.project_information.project_type
                sg_lichting := "L" ++ toString user.student_graduation_year
                sg_fps := st.project_information.project_fps
                sg_status := "Active" },
              SgCall.createPipelineConfiguration
              { code := "Primary"
                descriptor := "sgtk:descriptor:git_branch?branch=release/s"
                  ++ toString user.student_year
                  ++ "&path=https://github.com/nfa-vfxim/nfa-shotgun-configuration.git"
                plugin_ids := "basic.*"
                project := { id := project_id, type := "Project" }
                sg_lichting := "s" ++ toString user.student_year }],
          Except.ok
            ("https://nfa.shotgunstudio.com/page/project_overview?project_id="
              ++ toString project_id)) := by
  unfold create_project
  rw [get_formatted_supervisors_list_ok env _ hsup, hcp, hpl]
  simp [build_project_data, build_pipeline_configuration_data, formatted_refs,
    get_pipeline_configuration_string]

/-- Witness for C5 at a concrete input: one Artist-tier supervisor (id 7),
acting user in year 2 of cohort 2026, project id 5 — the full payloads and
the returned URL, fully evaluated. -/
theorem project_create_payload_witness :
    create_project envAllOk stArtist userStu
      = ([SgCall.update 7 supervisor_permission,
          SgCall.createProject
            { name := ""
              tank_name := ""
              sg_projectcode := ""
              users := [{ id := 7, type := "HumanUser" }]
              sg_supervisors := [{ id := 7, type := "HumanUser" }]
              sg_render_engine := "All"
              sg_type := "Fiction"
              sg_lichting := "L2026"
              sg_fps := 25
              sg_status := "Active" },
          SgCall.createPipelineConfiguration
            { code := "Primary"
              descriptor := "sgtk:descriptor:git_branch?branch=release/s2&path=https://github.com/nfa-vfxim/nfa-shotgun-configuration.git"
              plugin_ids := "basic.*"
              project := { id := 5, type := "Project" }
              sg_lichting := "s2" }],
        Except.ok
          "https://nfa.shotgunstudio.com/page/project_overview?project_id=5") := by
  have h := project_create_payload envAllOk stArtist userStu 5
    (fun u _ _ => rfl) rfl rfl
  exact h

/-- C5 counterexample: the supervisor references the payload carries are
typed `"HumanUser"`, not `"Person"` as the claim states. -/
theorem supervisor_reference_type_humanuser :
    (get_formatted_supervisors_list envAllOk
        stArtist.project_information.supervisor_list).snd
      = Except.ok [{ id := 7, type := "HumanUser" }]
      ∧ ({ id := 7, type := "HumanUser" } : EntityRef)
        ≠ { id := 7, type := "Person" } := by
  refine ⟨rfl, by decide⟩

end ProjectCreator
